import Mathlib

/-!
Verification of the power-policy device model of the embedded-services
repository, shallowly embedded in Lean 4.

The embedding follows `src/embedded-service/src/power/policy/device.rs`.
Types and operations whose defining code lives outside the provided
sources (the `action` typestate layer, the `ipc::deferred` rendezvous
channel, the `intrusive_list` primitive, and the capability/identity
types from the surrounding `power::policy` module) are modelled from the
specification and carry a doc comment saying so.
-/

namespace PowerPolicy

/-- Modelled from the spec: `DeviceId` is an opaque small integer identity,
immutable for a device's lifetime (its definition lives in the surrounding
`power::policy` module, outside the provided sources). -/
structure DeviceId where
  id : Nat
deriving DecidableEq, Repr

/-- Modelled from the spec: `ProviderPowerCapability` is the negotiated power
profile a port is currently offering (opaque payload; defined outside the
provided sources). -/
structure ProviderPowerCapability where
  value : Nat
deriving DecidableEq, Repr

/-- Modelled from the spec: `ConsumerPowerCapability` is the negotiated power
profile a port is currently drawing (opaque payload; defined outside the
provided sources). -/
structure ConsumerPowerCapability where
  value : Nat
deriving DecidableEq, Repr

/-- Most basic device states (`StateKind` in `device.rs`). -/
inductive StateKind where
  /-- No device attached -/
  | Detached
  /-- Device is attached -/
  | Idle
  /-- Device is actively providing power, USB PD source mode -/
  | ConnectedProvider
  /-- Device is actively consuming power, USB PD sink mode -/
  | ConnectedConsumer
deriving DecidableEq, Repr

/-- Current state of the power device (`State` in `device.rs`). -/
inductive State where
  /-- Device is attached, but is not currently providing or consuming power -/
  | Idle
  /-- Device is attached and is currently providing power -/
  | ConnectedProvider (cap : ProviderPowerCapability)
  /-- Device is attached and is currently consuming power -/
  | ConnectedConsumer (cap : ConsumerPowerCapability)
  /-- No device attached -/
  | Detached
deriving DecidableEq, Repr

/-- `State::kind` from `device.rs`: the tag of the state. -/
def State.kind : State → StateKind
  | State.Idle => StateKind.Idle
  | State.ConnectedProvider _ => StateKind.ConnectedProvider
  | State.ConnectedConsumer _ => StateKind.ConnectedConsumer
  | State.Detached => StateKind.Detached

/-- Modelled from the spec: the error taxonomy of the `power::policy` module
(defined outside the provided sources): `InvalidState(expected, actual)`,
`Closed`, `AlreadyLinked`. -/
inductive Error where
  /-- a typestate-bound action attempted while the live state kind differs -/
  | InvalidState (expected actual : StateKind)
  /-- the channel peer side ended -/
  | Closed
  /-- a registry insertion on a container already part of a list -/
  | AlreadyLinked
deriving DecidableEq, Repr

/-- Internal device state for power policy (`InternalState` in `device.rs`). -/
structure InternalState where
  /-- Current state of the device -/
  state : State
  /-- Current consumer capability -/
  consumer_capability : Option ConsumerPowerCapability
  /-- Current requested provider capability -/
  requested_provider_capability : Option ProviderPowerCapability
deriving DecidableEq, Repr

/-- Data for a device request (`CommandData` in `device.rs`). -/
inductive CommandData where
  /-- Start consuming on this device -/
  | ConnectAsConsumer (cap : ConsumerPowerCapability)
  /-- Start providing power to port partner on this device -/
  | ConnectAsProvider (cap : ProviderPowerCapability)
  /-- Stop providing or consuming on this device -/
  | Disconnect
deriving DecidableEq, Repr

/-- Request from power policy service to a device (`Command` in `device.rs`). -/
structure Command where
  /-- Target device -/
  id : DeviceId
  /-- Request data -/
  data : CommandData
deriving DecidableEq, Repr

/-- Data for a device response (`ResponseData` in `device.rs`). -/
inductive ResponseData where
  /-- The request was successful -/
  | Complete
deriving DecidableEq, Repr

/-- Response from a device to the power policy service (`Response`). -/
structure Response where
  /-- Target device -/
  id : DeviceId
  /-- Response data -/
  data : ResponseData
deriving DecidableEq, Repr

/-- The device entity of `device.rs`.  The Rust struct holds the mutable
`InternalState` behind a mutex and owns an intrusive-list node and a command
channel; in this pure embedding the device value carries the identity and the
guarded record, and the channel and registry node are modelled separately. -/
structure Device where
  /-- Device ID -/
  id : DeviceId
  /-- Current state of the device (contents of the mutex-guarded record) -/
  internalState : InternalState
deriving DecidableEq, Repr

/-- `Device::new` from `device.rs`: fixed id, state `Detached`, both stored
capabilities `None`. -/
def Device.new (id : DeviceId) : Device :=
  { id := id
    internalState :=
      { state := State.Detached
        consumer_capability := none
        requested_provider_capability := none } }

/-- `Device::state` from `device.rs`. -/
def Device.state (d : Device) : State :=
  d.internalState.state

/-- `Device::consumer_capability` from `device.rs`: the stored field, as is. -/
def Device.consumer_capability (d : Device) : Option ConsumerPowerCapability :=
  d.internalState.consumer_capability

/-- `Device::is_consumer` from `device.rs`. -/
def Device.is_consumer (d : Device) : Bool :=
  d.state.kind = StateKind.ConnectedConsumer

/-- `Device::provider_capability` from `device.rs`: pattern-matches on the
live state, returning the payload only in `ConnectedProvider`. -/
def Device.provider_capability (d : Device) : Option ProviderPowerCapability :=
  match d.state with
  | State.ConnectedProvider capability => some capability
  | _ => none

/-- `Device::requested_provider_capability` from `device.rs`. -/
def Device.requested_provider_capability (d : Device) : Option ProviderPowerCapability :=
  d.internalState.requested_provider_capability

/-- `Device::is_provider` from `device.rs`. -/
def Device.is_provider (d : Device) : Bool :=
  d.state.kind = StateKind.ConnectedProvider

/-- `Device::set_state` from `device.rs`: writes the `state` field of the
guarded record. -/
def Device.set_state (d : Device) (new_state : State) : Device :=
  { d with internalState := { d.internalState with state := new_state } }

/-- `Device::update_consumer_capability` from `device.rs`: writes the
`consumer_capability` field of the guarded record. -/
def Device.update_consumer_capability (d : Device)
    (capability : Option ConsumerPowerCapability) : Device :=
  { d with internalState := { d.internalState with consumer_capability := capability } }

/-- `Device::update_requested_provider_capability` from `device.rs`: writes
the `requested_provider_capability` field of the guarded record. -/
def Device.update_requested_provider_capability (d : Device)
    (capability : Option ProviderPowerCapability) : Device :=
  { d with internalState := { d.internalState with requested_provider_capability := capability } }

/-- Modelled from the spec: a driver-facing typestate handle over a device
(`action::device::Device<'_, S>`; the `action` module is outside the provided
sources).  Its operation set is fixed to the declared state kind `S`. -/
structure DeviceActionHandle (S : StateKind) where
  /-- the underlying device the handle was acquired on -/
  device : Device
deriving DecidableEq, Repr

/-- Modelled from the spec: a policy-facing typestate handle over a device
(`action::policy::Policy<'_, S>`; outside the provided sources). -/
structure PolicyActionHandle (S : StateKind) where
  /-- the underlying device the handle was acquired on -/
  device : Device
deriving DecidableEq, Repr

/-- `Device::try_device_action::<S>` from `device.rs`: reads the live state
kind, fails with `InvalidState(S::kind(), state)` on mismatch, otherwise
returns a fresh handle fixed to `S`. -/
def Device.try_device_action (d : Device) (S : StateKind) :
    Except Error (DeviceActionHandle S) :=
  let state := d.state.kind
  if S ≠ state then Except.error (Error.InvalidState S state)
  else Except.ok ⟨d⟩

/-- `Device::try_policy_action::<S>` from `device.rs`: same check as
`try_device_action`, returning a policy-facing handle. -/
def Device.try_policy_action (d : Device) (S : StateKind) :
    Except Error (PolicyActionHandle S) :=
  let state := d.state.kind
  if S ≠ state then Except.error (Error.InvalidState S state)
  else Except.ok ⟨d⟩

/-- Modelled from the spec: `action::device::AnyState<'_>`, the tagged union
over the four possible current-state handles (outside the provided sources). -/
inductive DeviceAnyState where
  /-- handle for a detached device -/
  | Detached (h : DeviceActionHandle StateKind.Detached)
  /-- handle for an idle device -/
  | Idle (h : DeviceActionHandle StateKind.Idle)
  /-- handle for a providing device -/
  | ConnectedProvider (h : DeviceActionHandle StateKind.ConnectedProvider)
  /-- handle for a consuming device -/
  | ConnectedConsumer (h : DeviceActionHandle StateKind.ConnectedConsumer)
deriving DecidableEq, Repr

/-- `Device::device_action` from `device.rs`: branches on the live state kind
and wraps the matching handle. -/
def Device.device_action (d : Device) : DeviceAnyState :=
  match d.state.kind with
  | StateKind.Detached => DeviceAnyState.Detached ⟨d⟩
  | StateKind.Idle => DeviceAnyState.Idle ⟨d⟩
  | StateKind.ConnectedProvider => DeviceAnyState.ConnectedProvider ⟨d⟩
  | StateKind.ConnectedConsumer => DeviceAnyState.ConnectedConsumer ⟨d⟩

/-- Modelled from the spec: the `detach` operation of the non-`Detached`
driver-facing action handles (code in the `action` module, outside the
provided sources).  Per the spec, `detach()` collapses any state to
`Detached` directly; the handle writes the state via the privileged setter
and returns the `Detached` handle.  State-passing style: the updated device
is returned alongside the handle. -/
def DeviceActionHandle.detach {S : StateKind} (h : DeviceActionHandle S) :
    Except Error (Device × DeviceActionHandle StateKind.Detached) :=
  let d := h.device.set_state State.Detached
  Except.ok (d, ⟨d⟩)

/-- `Device::detach` from `device.rs`: if already `Detached`, returns
immediately; otherwise delegates to the current state's detach operation. -/
def Device.detach (d : Device) :
    Except Error (Device × DeviceActionHandle StateKind.Detached) :=
  match d.device_action with
  | DeviceAnyState.Detached state => Except.ok (d, state)
  | DeviceAnyState.Idle state => state.detach
  | DeviceAnyState.ConnectedProvider state => state.detach
  | DeviceAnyState.ConnectedConsumer state => state.detach

/-- Modelled from the spec: the state transition performed when the driver
task fulfils one command received over the channel (the fulfilling code —
the `action` layer and the driver wrapper — is outside the provided
sources).  The spec's transition table: `Idle` ↔ `ConnectedConsumer` via
`ConnectAsConsumer`/`Disconnect`; `Idle` ↔ `ConnectedProvider` via
`ConnectAsProvider`/`Disconnect`; `Detached` ↔ `Idle` transitions are driven
by hardware events, outside the command vocabulary.  A command issued from a
state where its transition does not apply produces no transition and no
`Complete` response (`none`). -/
def handleCommand : State → CommandData → Option (State × ResponseData)
  | State.Idle, CommandData.ConnectAsConsumer cap =>
      some (State.ConnectedConsumer cap, ResponseData.Complete)
  | State.Idle, CommandData.ConnectAsProvider cap =>
      some (State.ConnectedProvider cap, ResponseData.Complete)
  | State.ConnectedConsumer _, CommandData.Disconnect =>
      some (State.Idle, ResponseData.Complete)
  | State.ConnectedProvider _, CommandData.Disconnect =>
      some (State.Idle, ResponseData.Complete)
  | _, _ => none

/-- `Device::execute_device_command` from `device.rs` forwards the command to
the channel; the driver task answers it and the state update is applied via
the privileged setter.  This is the end-to-end effect of one successful
round trip: the command is handled per `handleCommand` and the new state
written with `set_state`.  Failure to transition yields no success. -/
def Device.execute_device_command (d : Device) (command : CommandData) :
    Option (Device × ResponseData) :=
  match handleCommand d.state command with
  | some (s, resp) => some (d.set_state s, resp)
  | none => none

/-- Wrapper type to make code cleaner (`InternalResponseData` in
`device.rs`): `Result<ResponseData, Error>`. -/
abbrev InternalResponseData := Except Error ResponseData

/-- Modelled from the spec: the rendezvous command channel
(`ipc::deferred::Channel`, outside the provided sources).  Concurrent
`execute` callers queue in call order (FIFO); each pending request carries
the ticket of the `execute` call that issued it, tickets count calls from 0.
`resolved` records, in completion order, which ticket each
`receive`/complete pair answered and with what response. -/
structure Channel (Req Resp : Type) where
  /-- requests queued by `execute`, oldest first, each with its call ticket -/
  pending : List (Nat × Req)
  /-- ticket the next `execute` call will get (number of calls so far) -/
  nextTicket : Nat
  /-- completed (ticket, response) pairs, in completion order -/
  resolved : List (Nat × Resp)
deriving DecidableEq, Repr

/-- Modelled from the spec: a channel with no calls issued yet. -/
def Channel.empty {Req Resp : Type} : Channel Req Resp :=
  { pending := [], nextTicket := 0, resolved := [] }

/-- Modelled from the spec: one `execute(request)` call: the request joins
the tail of the queue with the caller's ticket; no request is dropped or
superseded. -/
def Channel.execute {Req Resp : Type} (ch : Channel Req Resp) (r : Req) :
    Channel Req Resp :=
  { ch with
    pending := ch.pending ++ [(ch.nextTicket, r)]
    nextTicket := ch.nextTicket + 1 }

/-- Modelled from the spec: one `receive` plus completion of the returned
request handle by the driver task: the oldest pending request is claimed and
answered exactly once with `respond`, resolving the matching `execute`
call.  With nothing pending the driver stays suspended and the channel is
unchanged. -/
def Channel.receiveComplete {Req Resp : Type} (ch : Channel Req Resp)
    (respond : Req → Resp) : Channel Req Resp :=
  match ch.pending with
  | [] => ch
  | (t, r) :: rest =>
      { ch with pending := rest, resolved := ch.resolved ++ [(t, respond r)] }

/-- A batch of `execute` calls in their call order. -/
def Channel.executeAll {Req Resp : Type} (ch : Channel Req Resp)
    (rs : List Req) : Channel Req Resp :=
  rs.foldl Channel.execute ch

/-- The driver loop performing `n` `receive`/complete pairs. -/
def Channel.processAll {Req Resp : Type} (ch : Channel Req Resp)
    (respond : Req → Resp) : Nat → Channel Req Resp
  | 0 => ch
  | Nat.succ n => (ch.receiveComplete respond).processAll respond n

/-- The command channel owned by one device (`deferred::Channel<GlobalRawMutex,
CommandData, InternalResponseData>` in `device.rs`). -/
abbrev DeviceCommandChannel := Channel CommandData InternalResponseData

/-- Modelled from the spec: the intrusive registry list.  It never owns
container memory and only threads link fields; here a list value holds the
containers in insertion order, and a container's link record being part of
the list is modelled as list membership. -/
abbrev IntrusiveList (α : Type) := List α

/-- Modelled from the spec: `append(container)` inserts at the tail; it fails
with `AlreadyLinked` if the container's link record is already part of a
list, and a failed insertion leaves the list unchanged (no new list value is
produced). -/
def IntrusiveList.append {α : Type} [DecidableEq α] (l : IntrusiveList α)
    (c : α) : Except Error (IntrusiveList α) :=
  if c ∈ l then Except.error Error.AlreadyLinked
  else Except.ok (l ++ [c])

/-- Modelled from the spec: `iterate()` produces the sequence of container
references in list order. -/
def IntrusiveList.iterate {α : Type} (l : IntrusiveList α) : List α :=
  l

/-- Successive `append` calls, stopping at the first failure. -/
def IntrusiveList.appendAll {α : Type} [DecidableEq α] (l : IntrusiveList α) :
    List α → Except Error (IntrusiveList α)
  | [] => Except.ok l
  | c :: cs =>
      match IntrusiveList.append l c with
      | Except.ok l2 => IntrusiveList.appendAll l2 cs
      | Except.error e => Except.error e

/-- C1: for every state tag `S` and every device, `try_device_action` (and
likewise `try_policy_action`) returns `Ok` with a handle fixed to state `S`
exactly when the device's live state kind equals `S`; otherwise it returns
`Err(InvalidState(expected, actual))` with `expected = S` and `actual` the
current state kind. -/
theorem try_action_matches_live_state (S : StateKind) (d : Device) :
    d.try_device_action S =
      (if S = d.state.kind then Except.ok ⟨d⟩
       else Except.error (Error.InvalidState S d.state.kind)) ∧
    d.try_policy_action S =
      (if S = d.state.kind then Except.ok ⟨d⟩
       else Except.error (Error.InvalidState S d.state.kind)) := by
  by_cases h : S = d.state.kind <;>
    simp [Device.try_device_action, Device.try_policy_action, h]

/-- C4: `provider_capability()` returns `Some cap` exactly when the live
state is `ConnectedProvider cap`, and `none` whenever the live state kind is
anything else, regardless of the stored capability fields. -/
theorem provider_capability_filtering (d : Device) :
    (∀ cap, d.provider_capability = some cap ↔
      d.state = State.ConnectedProvider cap) ∧
    (d.state.kind ≠ StateKind.ConnectedProvider ↔ d.provider_capability = none) := by
  obtain ⟨di, st, cc, rp⟩ := d
  cases st <;>
    simp [Device.provider_capability, Device.state, State.kind]

/-- C5: `detach()` succeeds from every state and leaves the state
`Detached`, and a second consecutive call also succeeds and leaves the state
`Detached` (idempotence). -/
theorem detach_idempotent (d : Device) :
    ∃ d1 h1, d.detach = Except.ok (d1, h1) ∧ d1.state = State.Detached ∧
      ∃ d2 h2, d1.detach = Except.ok (d2, h2) ∧ d2.state = State.Detached := by
  obtain ⟨di, st, cc, rp⟩ := d
  cases st <;>
    exact ⟨_, _, rfl, rfl, _, _, rfl, rfl⟩

/-- C7: `Device::new(id)` yields a device whose `id()` is `id`, whose state
is `Detached`, and whose `consumer_capability()` and
`requested_provider_capability()` are both `none`. -/
theorem device_new_init (i : DeviceId) :
    (Device.new i).id = i ∧
    (Device.new i).state = State.Detached ∧
    (Device.new i).consumer_capability = none ∧
    (Device.new i).requested_provider_capability = none :=
  ⟨rfl, rfl, rfl, rfl⟩

/-- C8: each privileged setter writes exactly one field of the guarded
`InternalState` and leaves the other two unchanged. -/
theorem setters_frame (d : Device) (s : State)
    (cc : Option ConsumerPowerCapability) (pc : Option ProviderPowerCapability) :
    ((d.set_state s).internalState.state = s ∧
     (d.set_state s).internalState.consumer_capability =
       d.internalState.consumer_capability ∧
     (d.set_state s).internalState.requested_provider_capability =
       d.internalState.requested_provider_capability) ∧
    ((d.update_consumer_capability cc).internalState.consumer_capability = cc ∧
     (d.update_consumer_capability cc).internalState.state =
       d.internalState.state ∧
     (d.update_consumer_capability cc).internalState.requested_provider_capability =
       d.internalState.requested_provider_capability) ∧
    ((d.update_requested_provider_capability pc).internalState.requested_provider_capability = pc ∧
     (d.update_requested_provider_capability pc).internalState.state =
       d.internalState.state ∧
     (d.update_requested_provider_capability pc).internalState.consumer_capability =
       d.internalState.consumer_capability) :=
  ⟨⟨rfl, rfl, rfl⟩, ⟨rfl, rfl, rfl⟩, ⟨rfl, rfl, rfl⟩⟩

/-- C10: `consumer_capability()` performs no defensive filtering: it returns
the stored field as is, so a device whose state kind is not
`ConnectedConsumer` can still report `Some cap` after a stale value was
stored through `update_consumer_capability`. -/
theorem consumer_capability_no_filtering :
    (∀ d : Device, d.consumer_capability = d.internalState.consumer_capability) ∧
    ((Device.new ⟨0⟩).update_consumer_capability (some ⟨5⟩)).state.kind ≠
      StateKind.ConnectedConsumer ∧
    ((Device.new ⟨0⟩).update_consumer_capability (some ⟨5⟩)).consumer_capability =
      some ⟨5⟩ :=
  ⟨fun _ => rfl, by decide, rfl⟩

/-- C3 counterexample: from the connected state `ConnectedConsumer ⟨5⟩`,
`execute_device_command Disconnect` succeeds, yet the resulting state is
`Idle`, not `Detached`: the transition table sends `Disconnect` back to
`Idle`, and `Detached` is reachable only through hardware detach events. -/
theorem disconnect_detached_counterexample :
    ((Device.new ⟨0⟩).set_state (State.ConnectedConsumer ⟨5⟩)).execute_device_command
        CommandData.Disconnect =
      some (((Device.new ⟨0⟩).set_state (State.ConnectedConsumer ⟨5⟩)).set_state
        State.Idle, ResponseData.Complete) ∧
    (((Device.new ⟨0⟩).set_state (State.ConnectedConsumer ⟨5⟩)).set_state
        State.Idle).state ≠ State.Detached :=
  ⟨rfl, by decide⟩

/-- C3 amended: whenever `execute_device_command Disconnect` returns
successfully, the device's state afterwards is `Idle` (and in particular the
transition only fires from a connected state). -/
theorem disconnect_yields_idle (d d2 : Device) (r : ResponseData)
    (h : d.execute_device_command CommandData.Disconnect = some (d2, r)) :
    d2.state = State.Idle := by
  obtain ⟨di, st, cc, rp⟩ := d
  cases st <;>
    simp only [Device.execute_device_command, Device.state, handleCommand,
      Option.some.injEq, Prod.mk.injEq, reduceCtorEq] at h <;>
    · rw [← h.1]
      rfl

/-- Witness for the C3 amended theorem: a concrete disconnect from
`ConnectedProvider ⟨7⟩` succeeds and lands in `Idle`. -/
theorem disconnect_yields_idle_witness :
    ((Device.new ⟨1⟩).set_state (State.ConnectedProvider ⟨7⟩)).execute_device_command
        CommandData.Disconnect =
      some (((Device.new ⟨1⟩).set_state (State.ConnectedProvider ⟨7⟩)).set_state
        State.Idle, ResponseData.Complete) ∧
    (((Device.new ⟨1⟩).set_state (State.ConnectedProvider ⟨7⟩)).set_state
        State.Idle).state = State.Idle :=
  ⟨rfl, disconnect_yields_idle
    ((Device.new ⟨1⟩).set_state (State.ConnectedProvider ⟨7⟩)) _ _ rfl⟩

/-- C6: whenever `execute_device_command (ConnectAsConsumer cap)` returns
successfully, the device's state afterwards is `ConnectedConsumer cap`,
`is_consumer()` is true and `is_provider()` is false. -/
theorem connect_as_consumer_post (d d2 : Device) (cap : ConsumerPowerCapability)
    (r : ResponseData)
    (h : d.execute_device_command (CommandData.ConnectAsConsumer cap) = some (d2, r)) :
    d2.state = State.ConnectedConsumer cap ∧
    d2.is_consumer = true ∧ d2.is_provider = false := by
  obtain ⟨di, st, cc, rp⟩ := d
  cases st <;>
    simp only [Device.execute_device_command, Device.state, handleCommand,
      Option.some.injEq, Prod.mk.injEq, reduceCtorEq] at h
  rw [← h.1]
  exact ⟨rfl, rfl, rfl⟩

/-- Witness for C6: connecting as consumer with capability `⟨5⟩` from `Idle`
succeeds and all three postconditions hold. -/
theorem connect_as_consumer_post_witness :
    ((Device.new ⟨0⟩).set_state State.Idle).execute_device_command
        (CommandData.ConnectAsConsumer ⟨5⟩) =
      some (((Device.new ⟨0⟩).set_state State.Idle).set_state
        (State.ConnectedConsumer ⟨5⟩), ResponseData.Complete) ∧
    (((Device.new ⟨0⟩).set_state State.Idle).set_state
        (State.ConnectedConsumer ⟨5⟩)).state = State.ConnectedConsumer ⟨5⟩ ∧
    (((Device.new ⟨0⟩).set_state State.Idle).set_state
        (State.ConnectedConsumer ⟨5⟩)).is_consumer = true ∧
    (((Device.new ⟨0⟩).set_state State.Idle).set_state
        (State.ConnectedConsumer ⟨5⟩)).is_provider = false := by
  refine ⟨rfl, ?_⟩
  exact connect_as_consumer_post ((Device.new ⟨0⟩).set_state State.Idle) _ _ _ rfl

/-- A batch of `execute` calls enqueues the requests at the tail in call
order, tagged with consecutive tickets, touching nothing else. -/
theorem Channel.executeAll_spec {Req Resp : Type} (rs : List Req) :
    ∀ ch : Channel Req Resp,
      (ch.executeAll rs).pending = ch.pending ++ List.enumFrom ch.nextTicket rs ∧
      (ch.executeAll rs).nextTicket = ch.nextTicket + rs.length ∧
      (ch.executeAll rs).resolved = ch.resolved := by
  induction rs with
  | nil => intro ch; simp [Channel.executeAll]
  | cons r rs ih =>
      intro ch
      obtain ⟨h1, h2, h3⟩ := ih (ch.execute r)
      refine ⟨?_, ?_, ?_⟩
      · rw [show (ch.executeAll (r :: rs)) = (ch.execute r).executeAll rs from rfl, h1]
        simp [Channel.execute, List.enumFrom]
      · rw [show (ch.executeAll (r :: rs)) = (ch.execute r).executeAll rs from rfl, h2]
        simp [Channel.execute]
        omega
      · rw [show (ch.executeAll (r :: rs)) = (ch.execute r).executeAll rs from rfl, h3]
        rfl

/-- Driving the channel for as many `receive`/complete pairs as there are
pending requests resolves each pending request exactly once, oldest first,
appending its (ticket, response) pair to the completion record. -/
theorem Channel.processAll_spec {Req Resp : Type} (respond : Req → Resp) :
    ∀ (ps : List (Nat × Req)) (nt : Nat) (res : List (Nat × Resp)),
      (Channel.processAll ⟨ps, nt, res⟩ respond ps.length).pending = [] ∧
      (Channel.processAll ⟨ps, nt, res⟩ respond ps.length).resolved =
        res ++ ps.map (fun p => (p.1, respond p.2)) := by
  intro ps
  induction ps with
  | nil => intro nt res; simp [Channel.processAll]
  | cons p ps ih =>
      intro nt res
      obtain ⟨t, r⟩ := p
      have hstep : (Channel.processAll ⟨(t, r) :: ps, nt, res⟩ respond
          ((t, r) :: ps).length) =
          Channel.processAll ⟨ps, nt, res ++ [(t, respond r)]⟩ respond ps.length := rfl
      rw [hstep]
      obtain ⟨h1, h2⟩ := ih nt (res ++ [(t, respond r)])
      exact ⟨h1, by rw [h2]; simp⟩

/-- Restatement of `Channel.processAll_spec` for a channel given through its
`pending` projection. -/
theorem Channel.processAll_pending {Req Resp : Type} (respond : Req → Resp)
    (ch : Channel Req Resp) (ps : List (Nat × Req)) (h : ch.pending = ps) :
    (ch.processAll respond ps.length).pending = [] ∧
    (ch.processAll respond ps.length).resolved =
      ch.resolved ++ ps.map (fun p => (p.1, respond p.2)) := by
  obtain ⟨a, b, c⟩ := ch
  subst h
  exact Channel.processAll_spec respond a b c

/-- C2: on one device's command channel, `N` `execute` calls in call order,
each paired with one `receive`-and-complete on the driver side, produce
exactly `N` request/response pairs: the completion record pairs ticket `k`
(the `k`-th `execute` call, counting from 0) with the response to the `k`-th
request, in that order, and no request remains pending — nothing is
duplicated, dropped or answered out of order. -/
theorem channel_fifo_matching (rs : List CommandData)
    (respond : CommandData → InternalResponseData) :
    (((Channel.empty : DeviceCommandChannel).executeAll rs).processAll respond
        rs.length).pending = [] ∧
    (((Channel.empty : DeviceCommandChannel).executeAll rs).processAll respond
        rs.length).resolved =
      (List.enumFrom 0 rs).map (fun p => (p.1, respond p.2)) := by
  obtain ⟨h1, h2, h3⟩ :=
    Channel.executeAll_spec rs (Channel.empty : DeviceCommandChannel)
  simp only [Channel.empty, List.nil_append] at h1 h3
  obtain ⟨hp, hr⟩ := Channel.processAll_pending respond _ (List.enumFrom 0 rs) h1
  have hlen : (List.enumFrom 0 rs).length = rs.length := by simp
  rw [hlen] at hp hr
  rw [h3] at hr
  simpa using ⟨hp, hr⟩

/-- Appending pairwise-distinct containers, none already linked, succeeds
and places them at the tail in insertion order. -/
theorem IntrusiveList.appendAll_ok {α : Type} [DecidableEq α] (cs : List α) :
    ∀ l : IntrusiveList α, cs.Nodup → (∀ x ∈ cs, x ∉ l) →
      IntrusiveList.appendAll l cs = Except.ok (l ++ cs) := by
  induction cs with
  | nil => intro l _ _; simp [IntrusiveList.appendAll]
  | cons c cs ih =>
      intro l hnd hdis
      have hcl : c ∉ l := hdis c (List.mem_cons_self c cs)
      have hstep : IntrusiveList.appendAll l (c :: cs) =
          IntrusiveList.appendAll (l ++ [c]) cs := by
        simp [IntrusiveList.appendAll, IntrusiveList.append, hcl]
      rw [hstep, ih (l ++ [c]) (List.Nodup.of_cons hnd) ?_]
      · simp
      · intro x hx
        simp only [List.mem_append, List.mem_singleton]
        rintro (hxl | hxc)
        · exact hdis x (List.mem_cons_of_mem c hx) hxl
        · exact (List.nodup_cons.mp hnd).1 (hxc ▸ hx)

/-- C9: building a registry by appending pairwise-distinct devices succeeds;
re-appending any device already in the list fails with `AlreadyLinked`, the
failed insertion produces no new list, and iterating the untouched list still
yields exactly the originally inserted devices in insertion order. -/
theorem append_duplicate_already_linked (cs : List Device) (c : Device)
    (hnd : cs.Nodup) (hc : c ∈ cs) :
    IntrusiveList.appendAll ([] : IntrusiveList Device) cs = Except.ok cs ∧
    IntrusiveList.append (cs : IntrusiveList Device) c =
      Except.error Error.AlreadyLinked ∧
    IntrusiveList.iterate (cs : IntrusiveList Device) = cs := by
  refine ⟨?_, ?_, rfl⟩
  · have := IntrusiveList.appendAll_ok cs ([] : IntrusiveList Device) hnd
      (by intro x _ hx; exact (List.not_mem_nil x) hx)
    simpa using this
  · simp [IntrusiveList.append, hc]

/-- Witness for C9: two distinct freshly constructed devices are appended,
then the first is appended again and the insertion is refused. -/
theorem append_duplicate_already_linked_witness :
    ([Device.new ⟨0⟩, Device.new ⟨1⟩] : List Device).Nodup ∧
    Device.new ⟨0⟩ ∈ ([Device.new ⟨0⟩, Device.new ⟨1⟩] : List Device) ∧
    IntrusiveList.appendAll ([] : IntrusiveList Device)
      [Device.new ⟨0⟩, Device.new ⟨1⟩] =
      Except.ok [Device.new ⟨0⟩, Device.new ⟨1⟩] ∧
    IntrusiveList.append ([Device.new ⟨0⟩, Device.new ⟨1⟩] : IntrusiveList Device)
      (Device.new ⟨0⟩) = Except.error Error.AlreadyLinked ∧
    IntrusiveList.iterate ([Device.new ⟨0⟩, Device.new ⟨1⟩] : IntrusiveList Device) =
      [Device.new ⟨0⟩, Device.new ⟨1⟩] := by
  refine ⟨by decide, by decide, ?_⟩
  exact append_duplicate_already_linked [Device.new ⟨0⟩, Device.new ⟨1⟩]
    (Device.new ⟨0⟩) (by decide) (by decide)

end PowerPolicy
